import Mathlib

/-!
# Prepaid usage accounting of the snet-daemon escrow package

Shallow embedding of `escrow/prepaid_service.go`.

Conventions of the embedding

* A Go `*big.Int` that is known to be allocated is an `Int`; a `*big.Int` field that
  may still hold its zero value (the nil pointer) is an `Option Int`.
* A Go `interface` value is a `Dyn`, or a `Field` when it sits in the `Key` or `Value`
  field of a record: its dynamic type is the constructor.  The unchecked type assertion
  `v.(T)` is a `Dyn.asT? v`, and `none` is the run-time panic Go raises for it.
* A Go function returning `(value, error)` returns an `Outcome`: the value with a nil
  error, a non-nil error (its message), or a run-time panic.
* The storage behind the service is a state `σ` passed explicitly; the transaction
  engine `ExecuteTransaction` is a parameter of the orchestrator.
* Pointers handed in by the caller (the records of a slice, their keys and values, the
  channel id and the amount given to `UpdateUsage`) are allocated; in-place `big.Int`
  additions become updates of the field that holds the receiver.
* The store and the engine of the storage are outside the sources; `ExecuteTransaction`
  is their model from the spec for one caller at a time.
-/

namespace Escrow

/-! ## Constants and types declared outside `prepaid_service.go` -/

/-- Modelled from the spec: the constant `USED_AMOUNT` is declared outside the given
sources; the spec names the usage type `USED` and renders its key as `12345/USED`. -/
def USED_AMOUNT : String := "USED"

/-- Modelled from the spec: the constant `PLANNED_AMOUNT` is declared outside the given
sources; the spec names the usage type `PLANNED`. -/
def PLANNED_AMOUNT : String := "PLANNED"

/-- Modelled from the spec: the constant `REFUND_AMOUNT` is declared outside the given
sources; the spec names the usage type `REFUND`. -/
def REFUND_AMOUNT : String := "REFUND"

/-- Key of a channel counter record, `PrePaidDataKey` in the source: the fields read
and written by `prepaid_service.go` are `ChannelID` (a `*big.Int`) and `UsageType`. -/
structure PrePaidDataKey where
  ChannelID : Option Int
  UsageType : String
  deriving DecidableEq

/-- Value of a channel counter record, `PrePaidData` in the source: the only field
used is `Amount`. -/
structure PrePaidData where
  Amount : Int
  deriving DecidableEq

/-- Go interface values found in the `Key` and `Value` fields of a record, by dynamic
type: the nil interface, a `*PrePaidDataKey`, a `*PrePaidData`, or a value of another
type. -/
inductive Field where
  | nil
  | prePaidDataKey (key : PrePaidDataKey)
  | prePaidData (data : PrePaidData)
  | other (typeName : String)
  deriving DecidableEq

/-- The assertion `v.(*PrePaidDataKey)` of line 94. -/
def Field.asPrePaidDataKey? : Field → Option PrePaidDataKey
  | .prePaidDataKey key => some key
  | _ => none

/-- The assertion `v.(*PrePaidData)` of line 95. -/
def Field.asPrePaidData? : Field → Option PrePaidData
  | .prePaidData data => some data
  | _ => none

/-- Modelled from the spec: the struct `TypedKeyValueData` is declared outside the given
sources; the source reads its fields `Key` and `Value`, both interface values, which
lines 94 and 95 assert to be a `*PrePaidDataKey` and a `*PrePaidData`.  The channel
counter record of the spec's data model is the record whose fields hold these types. -/
structure TypedKeyValueData where
  Key : Field
  Value : Field
  deriving DecidableEq

/-- Aggregated usage view, `PrePaidUsageData` in the source.  `ChannelID` and
`UpdateUsageType` keep their Go zero values (nil, the empty string) until assigned. -/
structure PrePaidUsageData where
  ChannelID : Option Int
  PlannedAmount : Int
  UsedAmount : Int
  FailedAmount : Int
  UpdateUsageType : String
  deriving DecidableEq

/-- Go interface values that reach the functions of `prepaid_service.go`, by dynamic
type.  A `*PrePaidUsageData` may be the nil pointer, which the source tests for. -/
inductive Dyn where
  | nil
  | bigInt (v : Int)
  | prePaidData (d : PrePaidData)
  | prePaidDataList (l : List PrePaidData)
  | typedKVList (l : List TypedKeyValueData)
  | prePaidUsageData (u : Option PrePaidUsageData)
  | other (typeName : String)
  deriving DecidableEq

/-- Result of a Go function of type `(T, error)`: a value with a nil error, a non-nil
error with its message, or a run-time panic. -/
inductive Outcome (α : Type) where
  | ok (value : α)
  | error (msg : String)
  | panic (msg : String)
  deriving DecidableEq

/-- True when the call returned a value and a nil error. -/
def Outcome.isOk {α : Type} : Outcome α → Bool
  | .ok _ => true
  | _ => false

/-- True when the call ended in a run-time panic. -/
def Outcome.isPanic {α : Type} : Outcome α → Bool
  | .panic _ => true
  | _ => false

/-- Message of the panic of a failed type assertion. -/
def assertionPanic : String := "interface conversion"

/-- Message of the panic of an out-of-range index. -/
def indexPanic : String := "index out of range"

/-- Message of the panic of a field access through a nil pointer. -/
def nilPanic : String := "nil pointer dereference"

/-- The assertion `v.([]*TypedKeyValueData)`. -/
def Dyn.asTypedKVList? : Dyn → Option (List TypedKeyValueData)
  | .typedKVList l => some l
  | _ => none

/-- The assertion `v.([]*PrePaidData)`. -/
def Dyn.asPrePaidDataList? : Dyn → Option (List PrePaidData)
  | .prePaidDataList l => some l
  | _ => none

/-- The assertion `v.(*PrePaidData)`. -/
def Dyn.asPrePaidData? : Dyn → Option PrePaidData
  | .prePaidData d => some d
  | _ => none

/-- The assertion `v.(*PrePaidUsageData)`; the inner option is the pointer. -/
def Dyn.asPrePaidUsageData? : Dyn → Option (Option PrePaidUsageData)
  | .prePaidUsageData u => some u
  | _ => none

/-- Rendering of a `*big.Int` by the verb `%v` and by `String()`: decimal digits, and
`<nil>` for the nil pointer. -/
def showBig : Option Int → String
  | some v => toString v
  | none => "<nil>"

/-- Modelled from the spec: the method `Clone` of `PrePaidUsageData` is declared outside
the given sources; it yields an independent copy of the aggregated view. -/
def PrePaidUsageData.Clone (data : PrePaidUsageData) : PrePaidUsageData := data

/-- Modelled from the spec: the method `GetAmountForUsageType` of `PrePaidUsageData` is
declared outside the given sources; it is the projection of the aggregated view on the
usage type being changed, the only part of the view that is persisted. -/
def PrePaidUsageData.GetAmountForUsageType (data : PrePaidUsageData) : Outcome Int :=
  if data.UpdateUsageType = USED_AMOUNT then .ok data.UsedAmount
  else if data.UpdateUsageType = PLANNED_AMOUNT then .ok data.PlannedAmount
  else if data.UpdateUsageType = REFUND_AMOUNT then .ok data.FailedAmount
  else .error ("Unknown Usage Type " ++ data.UpdateUsageType)

/-! ## `convertTypedDataToPrePaidUsage` (lines 89-108) -/

/-- The loop of lines 93-106 over the records still to be read, `usageData` being the
view built so far.  Lines 94 and 95 assert the types of the key and of the value and
panic when a field holds anything else.  Every record overwrites the channel id and the
amount of its tag; the first record with a tag outside the three usage types ends the
loop with an error. -/
def convertLoop : List TypedKeyValueData → PrePaidUsageData → Outcome PrePaidUsageData
  | [], usageData => .ok usageData
  | usageType :: rest, usageData =>
    match usageType.Key.asPrePaidDataKey? with
    | none => .panic assertionPanic
    | some key =>
      match usageType.Value.asPrePaidData? with
      | none => .panic assertionPanic
      | some data =>
        let usageData := { usageData with ChannelID := key.ChannelID }
        if key.UsageType = USED_AMOUNT then
          convertLoop rest { usageData with UsedAmount := data.Amount }
        else if key.UsageType = PLANNED_AMOUNT then
          convertLoop rest { usageData with PlannedAmount := data.Amount }
        else if key.UsageType = REFUND_AMOUNT then
          convertLoop rest { usageData with FailedAmount := data.Amount }
        else
          .error ("Unknown Usage Type " ++ key.UsageType)

/-- The view of lines 91-92: the three amounts are zero, the other fields hold their
zero values. -/
def zeroUsage : PrePaidUsageData :=
  { ChannelID := none, PlannedAmount := 0, UsedAmount := 0, FailedAmount := 0,
    UpdateUsageType := "" }

/-- The function `convertTypedDataToPrePaidUsage`: asserts that its argument is a slice
of typed records, then folds the records into a fresh aggregated view. -/
def convertTypedDataToPrePaidUsage (latestReadData : Dyn) : Outcome Dyn :=
  match latestReadData.asTypedKVList? with
  | none => .panic assertionPanic
  | some data =>
    match convertLoop data zeroUsage with
    | .ok usageData => .ok (.prePaidUsageData (some usageData))
    | .error msg => .error msg
    | .panic msg => .panic msg

/-! ## `BuildOldAndNewValuesForCAS` (lines 111-131) -/

/-- The function `BuildOldAndNewValuesForCAS`: from an aggregated view, the single
record keyed by the view's channel id and the usage type being changed. -/
def BuildOldAndNewValuesForCAS (params : List Dyn) : Outcome (List TypedKeyValueData) :=
  match params with
  | [] => .error "No parameters passed for the Action function"
  | p0 :: _ =>
    match p0.asPrePaidUsageData? with
    | none => .panic assertionPanic
    | some none => .error "Expected PrePaidUsageData in Params as the first parmeter"
    | some (some data) =>
      let updateUsageKey : PrePaidDataKey :=
        { ChannelID := data.ChannelID, UsageType := data.UpdateUsageType }
      match data.GetAmountForUsageType with
      | .error msg => .error msg
      | .panic msg => .panic msg
      | .ok amt =>
        .ok ([] ++ [{ Key := .prePaidDataKey updateUsageKey,
                      Value := .prePaidData { Amount := amt } }])

/-! ## `updateDetails` (lines 193-204) -/

/-- The function `updateDetails`: records the key in the view and adds the amount of
`details` to the counter named by the key's usage type; returns the updated view. -/
def updateDetails (usageData : PrePaidUsageData) (key : PrePaidDataKey)
    (details : PrePaidData) : PrePaidUsageData :=
  let usageData := { usageData with ChannelID := key.ChannelID }
  let usageData := { usageData with UpdateUsageType := key.UsageType }
  if key.UsageType = USED_AMOUNT then
    { usageData with UsedAmount := details.Amount + usageData.UsedAmount }
  else if key.UsageType = PLANNED_AMOUNT then
    { usageData with PlannedAmount := details.Amount + usageData.PlannedAmount }
  else if key.UsageType = REFUND_AMOUNT then
    { usageData with FailedAmount := details.Amount + usageData.FailedAmount }
  else usageData

/-! ## The three accounting rules (lines 133-191) -/

/-- Type `ConditionFunc` of the source: a variadic function over interface values. -/
abbrev ConditionFunc := List Dyn → Outcome (List TypedKeyValueData)

/-- Lines 145-151 of `IncrementUsedAmount`, from the clone of the old view to the
return, for the old view and the details obtained by the assertions before them.  The
sum of line 148 is stored in the planned amount of the old view, as `Add` does. -/
def usedAmountTail (oldState : PrePaidUsageData) (details : PrePaidData) :
    Outcome (List TypedKeyValueData) :=
  let newState := oldState.Clone
  let usageKey : PrePaidDataKey :=
    { UsageType := USED_AMOUNT, ChannelID := oldState.ChannelID }
  let newState := updateDetails newState usageKey details
  let oldState :=
    { oldState with PlannedAmount := oldState.PlannedAmount + oldState.FailedAmount }
  if newState.UsedAmount > oldState.PlannedAmount then
    .error ("Usage Exceeded on channel " ++ showBig oldState.ChannelID)
  else BuildOldAndNewValuesForCAS [.prePaidUsageData (some newState)]

/-- The rule `IncrementUsedAmount` (lines 134-153): `params[0]` is indexed and asserted
to be a slice of typed records at line 135, and asserted to be a `*PrePaidData` at
line 147. -/
def IncrementUsedAmount : ConditionFunc := fun params =>
  match params with
  | [] => .panic indexPanic
  | p0 :: _ =>
    match p0.asTypedKVList? with
    | none => .panic assertionPanic
    | some data =>
      if params.length = 0 then .error "You need to pass the Price " else
      match convertTypedDataToPrePaidUsage (.typedKVList data) with
      | .error msg => .error msg
      | .panic msg => .panic msg
      | .ok businessObject =>
        match businessObject.asPrePaidUsageData? with
        | none => .panic assertionPanic
        | some none => .panic nilPanic
        | some (some oldState) =>
          match p0.asPrePaidData? with
          | none => .panic assertionPanic
          | some details => usedAmountTail oldState details

/-- Lines 165-172 of `IncrementPlannedAmount`, from the clone of the old view to the
return. -/
def plannedAmountTail (oldState : PrePaidUsageData) (details : PrePaidData) :
    Outcome (List TypedKeyValueData) :=
  let newState := oldState.Clone
  let usageKey : PrePaidDataKey :=
    { UsageType := PLANNED_AMOUNT, ChannelID := oldState.ChannelID }
  let newState := updateDetails newState usageKey details
  if newState.PlannedAmount < oldState.PlannedAmount then
    .error ("A revised higher planned amount has been signed already for "
      ++ toString oldState.PlannedAmount ++ " on channel " ++ showBig oldState.ChannelID)
  else BuildOldAndNewValuesForCAS [.prePaidUsageData (some newState)]

/-- The rule `IncrementPlannedAmount` (lines 155-174): `params[0]` is asserted to be a
slice of `*PrePaidData` at line 156, that slice is handed to
`convertTypedDataToPrePaidUsage`, and `params[0]` is asserted to be a `*PrePaidData` at
line 167. -/
def IncrementPlannedAmount : ConditionFunc := fun params =>
  match params with
  | [] => .panic indexPanic
  | p0 :: _ =>
    match p0.asPrePaidDataList? with
    | none => .panic assertionPanic
    | some data =>
      if params.length = 0 then
        .error "You need to pass the Price and the Channel Id "
      else
      match convertTypedDataToPrePaidUsage (.prePaidDataList data) with
      | .error msg => .error msg
      | .panic msg => .panic msg
      | .ok businessObject =>
        match businessObject.asPrePaidUsageData? with
        | none => .panic assertionPanic
        | some none => .panic nilPanic
        | some (some oldState) =>
          match p0.asPrePaidData? with
          | none => .panic assertionPanic
          | some details => plannedAmountTail oldState details

/-- Lines 185-188 of `IncrementRefundAmount`; the key built at line 186 carries
`PLANNED_AMOUNT`, and the view is updated without a clone. -/
def refundAmountTail (newState : PrePaidUsageData) (details : PrePaidData) :
    Outcome (List TypedKeyValueData) :=
  let usageKey : PrePaidDataKey :=
    { UsageType := PLANNED_AMOUNT, ChannelID := newState.ChannelID }
  let newState := updateDetails newState usageKey details
  BuildOldAndNewValuesForCAS [.prePaidUsageData (some newState)]

/-- The rule `IncrementRefundAmount` (lines 176-190), with the same assertions on
`params[0]` as `IncrementPlannedAmount` (lines 177 and 187). -/
def IncrementRefundAmount : ConditionFunc := fun params =>
  match params with
  | [] => .panic indexPanic
  | p0 :: _ =>
    match p0.asPrePaidDataList? with
    | none => .panic assertionPanic
    | some data =>
      if params.length = 0 then .error "You need to pass the Price " else
      match convertTypedDataToPrePaidUsage (.prePaidDataList data) with
      | .error msg => .error msg
      | .panic msg => .panic msg
      | .ok businessObject =>
        match businessObject.asPrePaidUsageData? with
        | none => .panic assertionPanic
        | some none => .panic nilPanic
        | some (some newState) =>
          match p0.asPrePaidData? with
          | none => .panic assertionPanic
          | some details => refundAmountTail newState details

/-! ## The orchestrator `UpdateUsage` (lines 35-84) -/

/-- Result of a call that returns a value or ends in a run-time panic. -/
inductive Run (α : Type) where
  | returned (value : α)
  | panicked (msg : String)
  deriving DecidableEq

/-- The request `TypedCASRequest` handed to the transaction engine: the three fields
set at lines 62-66. -/
structure TypedCASRequest where
  Update : List TypedKeyValueData → Outcome (List TypedKeyValueData)
  RetryTillSuccessOrError : Bool
  ConditionKeys : List String

/-- The transaction engine `ExecuteTransaction` of the storage, which is outside the
given sources: from a request and the store it yields `(ok, err)` or panics, and the
store after the call. -/
abbrev Engine (σ : Type) := TypedCASRequest → σ → Run (Bool × Option String) × σ

/-- The function `getAllKeys` (lines 78-84): for each of the three usage types, in the
order REFUND, PLANNED, USED, the decimal channel id, a slash and the type name. -/
def getAllKeys (channelId : Int) : List String :=
  [REFUND_AMOUNT, PLANNED_AMOUNT, USED_AMOUNT].map
    (fun typ => toString channelId ++ "/" ++ typ)

/-- The switch of lines 38-50: the rule selected for a usage type, `none` in the
default case. -/
def selectConditionFunc (updateUsageType : String) : Option ConditionFunc :=
  if updateUsageType = USED_AMOUNT then some IncrementUsedAmount
  else if updateUsageType = PLANNED_AMOUNT then some IncrementPlannedAmount
  else if updateUsageType = REFUND_AMOUNT then some IncrementRefundAmount
  else none

/-- The closure `typedUpdateFunc` of lines 52-60: calls the rule with the read records
and the revised amount, and hands the rule's records to `BuildOldAndNewValuesForCAS`. -/
def typedUpdateFunc (conditionFunc : ConditionFunc) (revisedAmount : Int)
    (conditionValues : List TypedKeyValueData) : Outcome (List TypedKeyValueData) :=
  match conditionFunc [.typedKVList conditionValues, .bigInt revisedAmount] with
  | .error msg => .error msg
  | .panic msg => .panic msg
  | .ok newValues => BuildOldAndNewValuesForCAS [.typedKVList newValues]

/-- The request built at lines 62-66. -/
def casRequest (conditionFunc : ConditionFunc) (channelId revisedAmount : Int) :
    TypedCASRequest :=
  { Update := typedUpdateFunc conditionFunc revisedAmount
    RetryTillSuccessOrError := true
    ConditionKeys := getAllKeys channelId }

/-- Message of the error of lines 72-73. -/
def transactionFailure (updateUsageType : String) (channelId : Int) : String :=
  "Error in executing ExecuteTransaction for usage type" ++ "  " ++ updateUsageType
    ++ " on channel " ++ toString channelId ++ " "

/-- The method `UpdateUsage` (lines 35-76) over a store `σ` and its engine: the
returned error (`none` is nil) or a panic, and the store after the call. -/
def UpdateUsage {σ : Type} (ExecuteTransaction : Engine σ) (channelId revisedAmount : Int)
    (updateUsageType : String) (store : σ) : Run (Option String) × σ :=
  match selectConditionFunc updateUsageType with
  | none => (.returned (some ("Unknow Update type " ++ updateUsageType)), store)
  | some conditionFunc =>
    let request := casRequest conditionFunc channelId revisedAmount
    match ExecuteTransaction request store with
    | (.panicked msg, store) => (.panicked msg, store)
    | (.returned (_, some err), store) => (.returned (some err), store)
    | (.returned (false, none), store) =>
      (.returned (some (transactionFailure updateUsageType channelId)), store)
    | (.returned (true, none), store) => (.returned none, store)

/-- An engine that also keeps the list of the requests it was called with, oldest
first. -/
def recording {σ : Type} (exec : Engine σ) : Engine (List TypedCASRequest × σ) :=
  fun request st =>
    let r := exec request st.2
    (r.1, (st.1 ++ [request], r.2))

/-! ## Specification vocabulary -/

/-- A usage-type tag is known when it is one of USED, PLANNED, REFUND. -/
def knownUsageType (t : String) : Prop :=
  t = USED_AMOUNT ∨ t = PLANNED_AMOUNT ∨ t = REFUND_AMOUNT

instance knownUsageTypeDecidable (t : String) : Decidable (knownUsageType t) := by
  unfold knownUsageType; infer_instance

/-- The usage-type tag a record carries, when its key is a `*PrePaidDataKey`. -/
def TypedKeyValueData.tag? (r : TypedKeyValueData) : Option String :=
  r.Key.asPrePaidDataKey?.map (fun key => key.UsageType)

/-- The amount a record carries, when its value is a `*PrePaidData`. -/
def TypedKeyValueData.amount? (r : TypedKeyValueData) : Option Int :=
  r.Value.asPrePaidData?.map (fun data => data.Amount)

/-- A channel counter record: the key is a `*PrePaidDataKey` and the value is a
`*PrePaidData`. -/
def isCounterRecord (r : TypedKeyValueData) : Prop :=
  r.tag?.isSome ∧ r.amount?.isSome

instance isCounterRecordDecidable (r : TypedKeyValueData) : Decidable (isCounterRecord r) := by
  unfold isCounterRecord; infer_instance

/-- The record carries a usage-type tag and the tag is one of USED, PLANNED, REFUND. -/
def hasKnownTag (r : TypedKeyValueData) : Prop :=
  match r.tag? with
  | some t => knownUsageType t
  | none => False

instance hasKnownTagDecidable (r : TypedKeyValueData) : Decidable (hasKnownTag r) := by
  unfold hasKnownTag; split <;> infer_instance

/-- A text occurs in a message when the message has it as a contiguous part. -/
def occursIn (part msg : String) : Prop := part.data <:+: msg.data

/-! ## Sample data -/

/-- Records of channel 42 with planned = 1000 and used = 400, no refund record. -/
def channel42 : List TypedKeyValueData :=
  [{ Key := .prePaidDataKey { ChannelID := some 42, UsageType := PLANNED_AMOUNT },
     Value := .prePaidData { Amount := 1000 } },
   { Key := .prePaidDataKey { ChannelID := some 42, UsageType := USED_AMOUNT },
     Value := .prePaidData { Amount := 400 } }]

/-- The single record of channel 42 with planned = 1200. -/
def planned1200 : List TypedKeyValueData :=
  [{ Key := .prePaidDataKey { ChannelID := some 42, UsageType := PLANNED_AMOUNT },
     Value := .prePaidData { Amount := 1200 } }]

/-- A record of channel 42 whose tag is none of the three usage types. -/
def bogusRecords : List TypedKeyValueData :=
  [{ Key := .prePaidDataKey { ChannelID := some 42, UsageType := "BOGUS" },
     Value := .prePaidData { Amount := 7 } }]

/-- An engine over a store that counts the calls it received; it reports every
transaction as applied. -/
def appliedEngine : Engine Nat := fun _ calls => (.returned (true, none), calls + 1)

/-- An engine over a store that counts the calls it received; it reports every
transaction as not applied, without error. -/
def notAppliedEngine : Engine Nat := fun _ calls => (.returned (false, none), calls + 1)

/-! ## `ListPrePaidUsers` (lines 25-28) -/

/-- The method `ListPrePaidUsers`: `GetAll` belongs to the storage, outside the given
sources, and is a parameter that yields `(data, err)` from the store; `data` is asserted
to be a slice of `*PrePaidData` whatever `err` is. -/
def ListPrePaidUsers {σ : Type} (GetAll : σ → Dyn × Option String) (store : σ) :
    Run (List PrePaidData × Option String) :=
  let (data, err) := GetAll store
  match data.asPrePaidDataList? with
  | none => .panicked assertionPanic
  | some users => .returned (users, err)

/-! ## The transaction engine without concurrent callers -/

/-- Modelled from the spec: the store behind `TypedAtomicStorage` is outside the given
sources; it holds one record per key string. -/
abbrev Store := List (String × TypedKeyValueData)

/-- Modelled from the spec: the key string a record is persisted under, the decimal
channel id, a slash and the usage-type name. -/
def storageKey (key : PrePaidDataKey) : String :=
  showBig key.ChannelID ++ "/" ++ key.UsageType

/-- Modelled from the spec: `get(key)` of the typed store, `none` for a miss. -/
def Store.get (store : Store) (key : String) : Option TypedKeyValueData :=
  (store.find? (fun entry => entry.1 = key)).map (fun entry => entry.2)

/-- Modelled from the spec: writing one record under its key, replacing what the key
held; a record whose key is not a `*PrePaidDataKey` has no key string and is not
written. -/
def Store.put (store : Store) (record : TypedKeyValueData) : Store :=
  match record.Key.asPrePaidDataKey? with
  | none => store
  | some key =>
    (storageKey key, record) :: store.filter (fun entry => entry.1 ≠ storageKey key)

/-- Modelled from the spec: the engine `ExecuteTransaction` of section 4.1 is outside the
given sources.  This is its run when no other caller touches the store between the read
and the swap: it reads the records present under the condition keys, invokes the update
function, passes on its domain error, and otherwise swaps in the new records, which
applies since every key still holds the value read.  A panic of the update function
unwinds through the engine.  What the engine hands over for a key that holds no record
is not in the sources; here such a key contributes no record. -/
def ExecuteTransaction : Engine Store := fun request store =>
  let current := request.ConditionKeys.filterMap store.get
  match request.Update current with
  | .panic msg => (.panicked msg, store)
  | .error msg => (.returned (false, some msg), store)
  | .ok newValues => (.returned (true, none), newValues.foldl Store.put store)

/-- The amount stored for a channel and a usage type, zero when the key holds no
record. -/
def Store.amount (store : Store) (channelId : Int) (typ : String) : Int :=
  match store.get (toString channelId ++ "/" ++ typ) with
  | some record =>
    match record.amount? with
    | some amount => amount
    | none => 0
  | none => 0

/-- One requested update: the amount and the usage type given to `UpdateUsage`. -/
structure UsageUpdate where
  amount : Int
  usageType : String
  deriving DecidableEq

/-- A sequence of `UpdateUsage` calls on one channel, one after the other, each on the
store the one before left: the results in order, and the final store. -/
def applyUpdates (channelId : Int) :
    List UsageUpdate → Store → List (Run (Option String)) × Store
  | [], store => ([], store)
  | u :: rest, store =>
    let r := UpdateUsage ExecuteTransaction channelId u.amount u.usageType store
    let rs := applyUpdates channelId rest r.2
    (r.1 :: rs.1, rs.2)

/-- The store holding the three counters of one channel. -/
def channelStore (channelId planned used failed : Int) : Store :=
  [(toString channelId ++ "/" ++ PLANNED_AMOUNT,
      { Key := .prePaidDataKey { ChannelID := some channelId, UsageType := PLANNED_AMOUNT },
        Value := .prePaidData { Amount := planned } }),
   (toString channelId ++ "/" ++ USED_AMOUNT,
      { Key := .prePaidDataKey { ChannelID := some channelId, UsageType := USED_AMOUNT },
        Value := .prePaidData { Amount := used } }),
   (toString channelId ++ "/" ++ REFUND_AMOUNT,
      { Key := .prePaidDataKey { ChannelID := some channelId, UsageType := REFUND_AMOUNT },
        Value := .prePaidData { Amount := failed } })]

/-- The four updates of the scenario on channel 42. -/
def scenario42 : List UsageUpdate :=
  [{ amount := 400, usageType := USED_AMOUNT }, { amount := 700, usageType := USED_AMOUNT },
   { amount := 200, usageType := PLANNED_AMOUNT },
   { amount := 700, usageType := USED_AMOUNT }]

/-! ## Storage keys -/

/-- The key built at line 81 for a channel id and a usage-type name: the decimal
rendering of the channel id, a slash and the name. -/
def usageKey (channelId : Int) (typ : String) : String :=
  toString channelId ++ "/" ++ typ

/-- The number a list of decimal digit characters denotes, most significant digit
first. -/
def digitsValue (ds : List Char) : Nat :=
  ds.foldl (fun acc ch => acc * 10 + (ch.toNat - 48)) 0

/-! ## Facts about the aggregation loop -/

theorem used_ne_planned : USED_AMOUNT ≠ PLANNED_AMOUNT := by decide

theorem used_ne_refund : USED_AMOUNT ≠ REFUND_AMOUNT := by decide

theorem planned_ne_refund : PLANNED_AMOUNT ≠ REFUND_AMOUNT := by decide

/-- The two fields of a channel counter record. -/
theorem isCounterRecord_fields (r : TypedKeyValueData) (h : isCounterRecord r) :
    ∃ key data, r = { Key := .prePaidDataKey key, Value := .prePaidData data } := by
  obtain ⟨k, v⟩ := r
  cases k <;> cases v <;>
    simp [isCounterRecord, TypedKeyValueData.tag?, TypedKeyValueData.amount?,
      Field.asPrePaidDataKey?, Field.asPrePaidData?] at h ⊢

/-- One turn of the loop on a channel counter record. -/
theorem convertLoop_cons_counter (key : PrePaidDataKey) (data : PrePaidData)
    (rest : List TypedKeyValueData) (u0 : PrePaidUsageData) :
    convertLoop ({ Key := .prePaidDataKey key, Value := .prePaidData data } :: rest) u0 =
      if key.UsageType = USED_AMOUNT then
        convertLoop rest { u0 with ChannelID := key.ChannelID, UsedAmount := data.Amount }
      else if key.UsageType = PLANNED_AMOUNT then
        convertLoop rest { u0 with ChannelID := key.ChannelID, PlannedAmount := data.Amount }
      else if key.UsageType = REFUND_AMOUNT then
        convertLoop rest { u0 with ChannelID := key.ChannelID, FailedAmount := data.Amount }
      else .error ("Unknown Usage Type " ++ key.UsageType) := rfl

/-- On channel counter records with known tags the loop ends without error, whatever view
it starts from. -/
theorem convertLoop_known_ok (recs : List TypedKeyValueData) :
    ∀ u0 : PrePaidUsageData, (∀ r ∈ recs, isCounterRecord r ∧ hasKnownTag r) →
      ∃ u, convertLoop recs u0 = .ok u := by
  induction recs with
  | nil => intro u0 _; exact ⟨u0, rfl⟩
  | cons r rest ih =>
    intro u0 h
    obtain ⟨hrec, htag⟩ := h r (List.mem_cons_self _ _)
    have hrest : ∀ x ∈ rest, isCounterRecord x ∧ hasKnownTag x :=
      fun x hx => h x (List.mem_cons_of_mem _ hx)
    obtain ⟨key, data, rfl⟩ := isCounterRecord_fields r hrec
    have hknown : knownUsageType key.UsageType := htag
    rw [convertLoop_cons_counter]
    rcases hknown with hu | hp | hf
    · rw [if_pos hu]
      exact ih _ hrest
    · rw [if_neg (hp ▸ Ne.symm used_ne_planned), if_pos hp]
      exact ih _ hrest
    · rw [if_neg (hf ▸ Ne.symm used_ne_refund), if_neg (hf ▸ Ne.symm planned_ne_refund),
        if_pos hf]
      exact ih _ hrest

/-- On channel counter records the loop ends with an error exactly when some record
carries an unknown tag, the message names the tag of such a record, and the loop does not
panic. -/
theorem convertLoop_error_iff (recs : List TypedKeyValueData) :
    ∀ u0 : PrePaidUsageData, (∀ r ∈ recs, isCounterRecord r) →
      ((∃ msg, convertLoop recs u0 = .error msg) ↔ ∃ r ∈ recs, ¬ hasKnownTag r) ∧
      (∀ msg, convertLoop recs u0 = .error msg →
        ∃ r ∈ recs, ¬ hasKnownTag r ∧ ∃ t, r.tag? = some t ∧
          msg = "Unknown Usage Type " ++ t) ∧
      (∀ msg, convertLoop recs u0 ≠ .panic msg) := by
  induction recs with
  | nil =>
    intro u0 _
    simp [convertLoop]
  | cons r rest ih =>
    intro u0 hall
    obtain ⟨key, data, rfl⟩ := isCounterRecord_fields r (hall r (List.mem_cons_self _ _))
    have hrest : ∀ x ∈ rest, isCounterRecord x :=
      fun x hx => hall x (List.mem_cons_of_mem _ hx)
    have htag : hasKnownTag { Key := .prePaidDataKey key, Value := .prePaidData data }
        ↔ knownUsageType key.UsageType := Iff.rfl
    rw [convertLoop_cons_counter]
    by_cases hu : key.UsageType = USED_AMOUNT
    · have hk : knownUsageType key.UsageType := Or.inl hu
      have := ih { u0 with ChannelID := key.ChannelID, UsedAmount := data.Amount } hrest
      rw [if_pos hu]
      simpa only [List.mem_cons, exists_eq_or_imp, htag, hk, not_true_eq_false, false_and,
        false_or] using this
    · by_cases hp : key.UsageType = PLANNED_AMOUNT
      · have hk : knownUsageType key.UsageType := Or.inr (Or.inl hp)
        have := ih { u0 with ChannelID := key.ChannelID, PlannedAmount := data.Amount } hrest
        rw [if_neg hu, if_pos hp]
        simpa only [List.mem_cons, exists_eq_or_imp, htag, hk, not_true_eq_false, false_and,
          false_or] using this
      · by_cases hf : key.UsageType = REFUND_AMOUNT
        · have hk : knownUsageType key.UsageType := Or.inr (Or.inr hf)
          have := ih { u0 with ChannelID := key.ChannelID, FailedAmount := data.Amount } hrest
          rw [if_neg hu, if_neg hp, if_pos hf]
          simpa only [List.mem_cons, exists_eq_or_imp, htag, hk, not_true_eq_false,
            false_and, false_or] using this
        · have hk : ¬ knownUsageType key.UsageType := by
            rintro (h | h | h)
            · exact hu h
            · exact hp h
            · exact hf h
          rw [if_neg hu, if_neg hp, if_neg hf]
          refine ⟨⟨fun _ => ⟨_, List.mem_cons_self _ _, htag.not.mpr hk⟩,
            fun _ => ⟨_, rfl⟩⟩, ?_, ?_⟩
          · intro msg hmsg
            refine ⟨_, List.mem_cons_self _ _, htag.not.mpr hk, key.UsageType, rfl, ?_⟩
            simpa using hmsg.symm
          · intro msg hmsg
            cases hmsg

/-! ## Facts about the three rules -/

/-- On a slice of typed records as first argument, `IncrementUsedAmount` passes on the
error of the aggregation, and otherwise panics at the assertion of line 147. -/
theorem IncrementUsedAmount_on_records (recs : List TypedKeyValueData) (rest : List Dyn) :
    IncrementUsedAmount (.typedKVList recs :: rest) =
      match convertLoop recs zeroUsage with
      | .ok _ => .panic assertionPanic
      | .error msg => .error msg
      | .panic msg => .panic msg := by
  simp only [IncrementUsedAmount, Dyn.asTypedKVList?, convertTypedDataToPrePaidUsage,
    List.length_cons, Nat.succ_ne_zero, if_false]
  cases convertLoop recs zeroUsage <;> rfl

/-- On channel counter records with known tags and any further arguments,
`IncrementUsedAmount` panics. -/
theorem IncrementUsedAmount_known_records_panic (recs : List TypedKeyValueData)
    (rest : List Dyn) (hknown : ∀ r ∈ recs, isCounterRecord r ∧ hasKnownTag r) :
    IncrementUsedAmount (.typedKVList recs :: rest) = .panic assertionPanic := by
  obtain ⟨u, hu⟩ := convertLoop_known_ok recs zeroUsage hknown
  rw [IncrementUsedAmount_on_records, hu]

/-- No argument list makes `IncrementUsedAmount` return records. -/
theorem IncrementUsedAmount_never_ok (params : List Dyn) :
    (IncrementUsedAmount params).isOk = false := by
  cases params with
  | nil => rfl
  | cons p0 rest =>
    cases p0 with
    | typedKVList recs =>
      rw [IncrementUsedAmount_on_records]
      cases convertLoop recs zeroUsage <;> rfl
    | _ => rfl

/-- Every argument list makes `IncrementPlannedAmount` panic. -/
theorem IncrementPlannedAmount_always_panics (params : List Dyn) :
    (IncrementPlannedAmount params).isPanic = true := by
  cases params with
  | nil => rfl
  | cons p0 rest => cases p0 <;> rfl

/-- Every argument list makes `IncrementRefundAmount` panic. -/
theorem IncrementRefundAmount_always_panics (params : List Dyn) :
    (IncrementRefundAmount params).isPanic = true := by
  cases params with
  | nil => rfl
  | cons p0 rest => cases p0 <;> rfl

/-- The closure handed to the engine never returns records, for any of the rules. -/
theorem typedUpdateFunc_never_ok (t : String) (conditionFunc : ConditionFunc)
    (h : selectConditionFunc t = some conditionFunc) (revisedAmount : Int)
    (conditionValues : List TypedKeyValueData) :
    (typedUpdateFunc conditionFunc revisedAmount conditionValues).isOk = false := by
  unfold selectConditionFunc at h
  split_ifs at h <;> simp only [Option.some.injEq] at h <;> subst h <;>
    simp only [typedUpdateFunc]
  · have := IncrementUsedAmount_never_ok [.typedKVList conditionValues, .bigInt revisedAmount]
    cases hres : IncrementUsedAmount [.typedKVList conditionValues, .bigInt revisedAmount]
      <;> simp_all [Outcome.isOk]
  · rfl
  · rfl

/-! ## The accounting rules at the shape of the call site -/

/-- C1: channel 42 holds planned = 1000, used = 400 and no refund, and the delta is 700,
so used + delta exceeds planned + failed and the rule should end with the error
`Usage Exceeded on channel 42`.  The code instead panics: line 147 asserts that
`params[0]`, the slice of records, is a `*PrePaidData`. -/
theorem IncrementUsedAmount_exceeding_delta_panics :
    convertTypedDataToPrePaidUsage (.typedKVList channel42) =
        .ok (.prePaidUsageData (some
          { ChannelID := some 42, PlannedAmount := 1000, UsedAmount := 400,
            FailedAmount := 0, UpdateUsageType := "" })) ∧
      (400 : Int) + 700 > 1000 + 0 ∧
      IncrementUsedAmount [.typedKVList channel42, .bigInt 700] = .panic assertionPanic ∧
      IncrementUsedAmount [.typedKVList channel42, .bigInt 700]
        ≠ .error "Usage Exceeded on channel 42" := by
  refine ⟨by decide, by decide, by decide, by decide⟩

/-- C4: with planned = 1200 and delta -100 the rule should be rejected with the error
`A revised higher planned amount has been signed already for 1200 on channel 42`.  The
code panics at line 156 instead, although the comparison of lines 165-172, run on the
reconstructed view, does produce that error. -/
theorem IncrementPlannedAmount_decrease_panics :
    IncrementPlannedAmount [.typedKVList planned1200, .bigInt (-100)]
        = .panic assertionPanic ∧
      plannedAmountTail
          { ChannelID := some 42, PlannedAmount := 1200, UsedAmount := 0,
            FailedAmount := 0, UpdateUsageType := "" } { Amount := -100 }
        = .error "A revised higher planned amount has been signed already for 1200 on channel 42" := by
  refine ⟨by decide, by decide⟩

/-- C5: with planned = 1000, used = 400, no refund and delta 50 the rule should return
the single record keyed (42, REFUND) with amount 50.  The code panics at line 177; and
lines 185-188, run on the reconstructed view, build the key with the tag PLANNED and add
the delta to the planned amount. -/
theorem IncrementRefundAmount_panics_and_keys_planned :
    IncrementRefundAmount [.typedKVList channel42, .bigInt 50] = .panic assertionPanic ∧
      (∀ params : List Dyn, (IncrementRefundAmount params).isPanic = true) ∧
      refundAmountTail
          { ChannelID := some 42, PlannedAmount := 1000, UsedAmount := 400,
            FailedAmount := 0, UpdateUsageType := "" } { Amount := 50 }
        = .ok [{ Key := .prePaidDataKey { ChannelID := some 42, UsageType := PLANNED_AMOUNT },
                 Value := .prePaidData { Amount := 1050 } }] :=
  ⟨by decide, IncrementRefundAmount_always_panics, by decide⟩

/-! ## The orchestrator -/

/-- A known usage type selects a rule. -/
theorem selectConditionFunc_known (t : String) (ht : knownUsageType t) :
    ∃ conditionFunc, selectConditionFunc t = some conditionFunc := by
  unfold selectConditionFunc
  rcases ht with h | h | h <;> subst h
  · exact ⟨_, rfl⟩
  · exact ⟨_, rfl⟩
  · exact ⟨_, rfl⟩

/-- An unknown usage type selects no rule. -/
theorem selectConditionFunc_unknown (t : String) (ht : ¬ knownUsageType t) :
    selectConditionFunc t = none := by
  unfold selectConditionFunc
  have h1 : t ≠ USED_AMOUNT := fun h => ht (Or.inl h)
  have h2 : t ≠ PLANNED_AMOUNT := fun h => ht (Or.inr (Or.inl h))
  have h3 : t ≠ REFUND_AMOUNT := fun h => ht (Or.inr (Or.inr h))
  simp only [if_neg h1, if_neg h2, if_neg h3]

/-- With a rule selected, the result of `UpdateUsage` is the engine's outcome on the
request of lines 62-66, mapped by lines 68-75, and the store is the one the engine
left. -/
theorem UpdateUsage_selected {σ : Type} (exec : Engine σ) (channelId revisedAmount : Int)
    (t : String) (store : σ) (conditionFunc : ConditionFunc)
    (h : selectConditionFunc t = some conditionFunc) :
    UpdateUsage exec channelId revisedAmount t store =
      ((match (exec (casRequest conditionFunc channelId revisedAmount) store).1 with
        | .panicked msg => .panicked msg
        | .returned (_, some err) => .returned (some err)
        | .returned (false, none) => .returned (some (transactionFailure t channelId))
        | .returned (true, none) => .returned none),
       (exec (casRequest conditionFunc channelId revisedAmount) store).2) := by
  unfold UpdateUsage
  rw [h]
  simp only
  generalize exec (casRequest conditionFunc channelId revisedAmount) store = out
  obtain ⟨result, after⟩ := out
  rcases result with ⟨⟨ok, err⟩⟩ | msg
  · cases ok <;> cases err <;> rfl
  · rfl

/-- The usage type and the channel id both occur in the message of lines 72-73. -/
theorem transactionFailure_mentions (t : String) (channelId : Int) :
    occursIn t (transactionFailure t channelId) ∧
      occursIn (toString channelId) (transactionFailure t channelId) := by
  constructor
  · refine ⟨("Error in executing ExecuteTransaction for usage type" ++ "  ").data,
      (" on channel " ++ toString channelId ++ " ").data, ?_⟩
    simp only [transactionFailure, String.data_append, List.append_assoc]
  · refine ⟨("Error in executing ExecuteTransaction for usage type" ++ "  " ++ t
      ++ " on channel ").data, " ".data, ?_⟩
    simp only [transactionFailure, String.data_append, List.append_assoc]

/-- C6: for a usage type that is none of USED, PLANNED, REFUND, `UpdateUsage` returns the
error `Unknow Update type` followed by the type and leaves the store as it was; run
against an engine that records its requests, the record stays empty, so
`ExecuteTransaction` is not invoked. -/
theorem UpdateUsage_unknown_type_no_storage {σ : Type} (exec : Engine σ)
    (channelId revisedAmount : Int) (t : String) (store : σ)
    (ht : ¬ knownUsageType t) :
    UpdateUsage exec channelId revisedAmount t store
        = (.returned (some ("Unknow Update type " ++ t)), store) ∧
      UpdateUsage (recording exec) channelId revisedAmount t ([], store)
        = (.returned (some ("Unknow Update type " ++ t)), ([], store)) := by
  unfold UpdateUsage
  rw [selectConditionFunc_unknown t ht]
  exact ⟨rfl, rfl⟩

/-- Witness of C6 on the call `UpdateUsage(42, 100, "BOGUS")` against an engine that
counts its calls. -/
theorem UpdateUsage_unknown_type_no_storage_witness :
    ¬ knownUsageType "BOGUS" ∧
      UpdateUsage appliedEngine 42 100 "BOGUS" 0
        = (.returned (some "Unknow Update type BOGUS"), 0) :=
  ⟨by decide, (UpdateUsage_unknown_type_no_storage appliedEngine 42 100 "BOGUS" 0
    (by decide)).1⟩

/-- C7: for a known usage type, `UpdateUsage` returns nil exactly when the engine returns
(true, nil) on the request; an error of the engine is returned as it is; and (false, nil)
becomes the transaction-failure error, whose message contains the usage type and the
channel id. -/
theorem UpdateUsage_outcome_mapping {σ : Type} (exec : Engine σ)
    (channelId revisedAmount : Int) (t : String) (store : σ) (ht : knownUsageType t) :
    ∃ conditionFunc, selectConditionFunc t = some conditionFunc ∧
      ((UpdateUsage exec channelId revisedAmount t store).1 = .returned none ↔
        (exec (casRequest conditionFunc channelId revisedAmount) store).1
          = .returned (true, none)) ∧
      (∀ (ok : Bool) (err : String),
        (exec (casRequest conditionFunc channelId revisedAmount) store).1
            = .returned (ok, some err) →
          (UpdateUsage exec channelId revisedAmount t store).1 = .returned (some err)) ∧
      ((exec (casRequest conditionFunc channelId revisedAmount) store).1
          = .returned (false, none) →
        (UpdateUsage exec channelId revisedAmount t store).1
          = .returned (some (transactionFailure t channelId))) ∧
      occursIn t (transactionFailure t channelId) ∧
      occursIn (toString channelId) (transactionFailure t channelId) := by
  obtain ⟨conditionFunc, hsel⟩ := selectConditionFunc_known t ht
  refine ⟨conditionFunc, hsel, ?_, ?_, ?_, transactionFailure_mentions t channelId⟩
  · rw [UpdateUsage_selected exec channelId revisedAmount t store conditionFunc hsel]
    rcases (exec (casRequest conditionFunc channelId revisedAmount) store).1
      with ⟨⟨ok, err⟩⟩ | msg
    · cases ok <;> cases err <;> simp
    · simp
  · intro ok err hout
    rw [UpdateUsage_selected exec channelId revisedAmount t store conditionFunc hsel, hout]
    cases ok <;> rfl
  · intro hout
    rw [UpdateUsage_selected exec channelId revisedAmount t store conditionFunc hsel, hout]

/-- Witness of C7 on the call `UpdateUsage(42, 400, USED)` against an engine that reports
the transaction as not applied. -/
theorem UpdateUsage_outcome_mapping_witness :
    knownUsageType USED_AMOUNT ∧
      (UpdateUsage notAppliedEngine 42 400 USED_AMOUNT 0).1 = .returned (some
        "Error in executing ExecuteTransaction for usage type  USED on channel 42 ") := by
  refine ⟨by decide, ?_⟩
  obtain ⟨_, _, _, _, h, _⟩ :=
    UpdateUsage_outcome_mapping notAppliedEngine 42 400 USED_AMOUNT 0 (by decide)
  exact h rfl

/-- C8: for a known usage type, `UpdateUsage` calls the engine once; the request has
`RetryTillSuccessOrError` set and its condition keys are the decimal channel id followed
by a slash and REFUND, PLANNED and USED. -/
theorem UpdateUsage_issues_one_request {σ : Type} (exec : Engine σ)
    (channelId revisedAmount : Int) (t : String) (store : σ) (ht : knownUsageType t) :
    ∃ conditionFunc, selectConditionFunc t = some conditionFunc ∧
      (UpdateUsage (recording exec) channelId revisedAmount t ([], store)).2.1
        = [casRequest conditionFunc channelId revisedAmount] ∧
      (casRequest conditionFunc channelId revisedAmount).RetryTillSuccessOrError = true ∧
      (casRequest conditionFunc channelId revisedAmount).ConditionKeys
        = [toString channelId ++ "/" ++ "REFUND", toString channelId ++ "/" ++ "PLANNED",
           toString channelId ++ "/" ++ "USED"] ∧
      getAllKeys 12345 = ["12345/REFUND", "12345/PLANNED", "12345/USED"] := by
  obtain ⟨conditionFunc, hsel⟩ := selectConditionFunc_known t ht
  refine ⟨conditionFunc, hsel, ?_, rfl, rfl, by decide⟩
  rw [UpdateUsage_selected (recording exec) channelId revisedAmount t ([], store)
    conditionFunc hsel]
  rfl

/-- Witness of C8 on the call `UpdateUsage(12345, 10, USED)`: one request is recorded,
with the keys of channel 12345. -/
theorem UpdateUsage_issues_one_request_witness :
    knownUsageType USED_AMOUNT ∧
      ((UpdateUsage (recording appliedEngine) 12345 10 USED_AMOUNT ([], 0)).2.1.map
        (fun request => request.ConditionKeys))
        = [["12345/REFUND", "12345/PLANNED", "12345/USED"]] := by
  refine ⟨by decide, ?_⟩
  obtain ⟨_, _, h, _, hkeys, _⟩ :=
    UpdateUsage_issues_one_request appliedEngine 12345 10 USED_AMOUNT 0 (by decide)
  rw [h]
  simp only [List.map_cons, List.map_nil, hkeys]
  decide

/-! ## The aggregation -/

/-- On a slice of typed records the aggregation is the loop started from the zero
view. -/
theorem convertTypedDataToPrePaidUsage_on_records (recs : List TypedKeyValueData) :
    convertTypedDataToPrePaidUsage (.typedKVList recs) =
      match convertLoop recs zeroUsage with
      | .ok usageData => .ok (.prePaidUsageData (some usageData))
      | .error msg => .error msg
      | .panic msg => .panic msg := rfl

/-- The aggregation of a slice of channel counter records ends with an error exactly when
a record carries an unknown tag; the message is `Unknown Usage Type` followed by such a
tag; and it does not panic. -/
theorem convertTypedDataToPrePaidUsage_error_iff (recs : List TypedKeyValueData)
    (htyped : ∀ r ∈ recs, isCounterRecord r) :
    ((∃ msg, convertTypedDataToPrePaidUsage (.typedKVList recs) = .error msg) ↔
        ∃ r ∈ recs, ¬ hasKnownTag r) ∧
      (∀ msg, convertTypedDataToPrePaidUsage (.typedKVList recs) = .error msg →
        ∃ r ∈ recs, ¬ hasKnownTag r ∧ ∃ t, r.tag? = some t ∧
          msg = "Unknown Usage Type " ++ t) ∧
      (∀ msg, convertTypedDataToPrePaidUsage (.typedKVList recs) ≠ .panic msg) := by
  obtain ⟨hiff, hmsg, hpanic⟩ := convertLoop_error_iff recs zeroUsage htyped
  rw [convertTypedDataToPrePaidUsage_on_records]
  cases hloop : convertLoop recs zeroUsage with
  | ok u =>
    rw [hloop] at hiff hmsg
    refine ⟨⟨fun h => ?_, fun h => ?_⟩, fun msg h => ?_, fun msg h => ?_⟩
    · obtain ⟨msg, h⟩ := h; cases h
    · obtain ⟨msg, h⟩ := hiff.mpr h; cases h
    · cases h
    · cases h
  | error e =>
    rw [hloop] at hiff hmsg
    refine ⟨⟨fun _ => hiff.mp ⟨e, rfl⟩, fun _ => ⟨e, rfl⟩⟩, fun msg h => ?_, fun msg h => ?_⟩
    · cases h; exact hmsg e rfl
    · cases h
  | panic m => exact absurd hloop (hpanic m)

/-- The error of the aggregation is returned by `IncrementUsedAmount` as it is. -/
theorem IncrementUsedAmount_propagates (recs : List TypedKeyValueData) (rest : List Dyn)
    (msg : String)
    (h : convertTypedDataToPrePaidUsage (.typedKVList recs) = .error msg) :
    IncrementUsedAmount (.typedKVList recs :: rest) = .error msg := by
  rw [convertTypedDataToPrePaidUsage_on_records] at h
  rw [IncrementUsedAmount_on_records]
  cases hloop : convertLoop recs zeroUsage with
  | ok u => rw [hloop] at h; cases h
  | error e => rw [hloop] at h; cases h; rfl
  | panic m => rw [hloop] at h; cases h

/-- C10: on the record (42, BOGUS) the aggregation fails with `Unknown Usage Type BOGUS`
and `IncrementUsedAmount` returns that error, but `IncrementPlannedAmount` and
`IncrementRefundAmount` panic at their first assertion (lines 156 and 177) and never
reach the aggregation. -/
theorem unknown_tag_planned_and_refund_panic :
    convertTypedDataToPrePaidUsage (.typedKVList bogusRecords)
        = .error "Unknown Usage Type BOGUS" ∧
      IncrementUsedAmount [.typedKVList bogusRecords, .bigInt 1]
        = .error "Unknown Usage Type BOGUS" ∧
      IncrementPlannedAmount [.typedKVList bogusRecords, .bigInt 1]
        = .panic assertionPanic ∧
      IncrementRefundAmount [.typedKVList bogusRecords, .bigInt 1]
        = .panic assertionPanic := by
  refine ⟨by decide, by decide, by decide, by decide⟩

/-! ## Updates through the engine without concurrent callers -/

/-- C11: channel 42 holds planned = 1000, used = 400, failed = 0 and the delta is 700, so
the update should return the usage-exceeded error.  The update function handed to the
engine panics on the records of the channel (line 147), so `UpdateUsage` ends in a panic
and returns no error; the three stored counters are as before. -/
theorem UpdateUsage_exceeding_used_panics :
    (getAllKeys 42).filterMap (channelStore 42 1000 400 0).get
        = [{ Key := .prePaidDataKey { ChannelID := some 42, UsageType := REFUND_AMOUNT },
             Value := .prePaidData { Amount := 0 } },
           { Key := .prePaidDataKey { ChannelID := some 42, UsageType := PLANNED_AMOUNT },
             Value := .prePaidData { Amount := 1000 } },
           { Key := .prePaidDataKey { ChannelID := some 42, UsageType := USED_AMOUNT },
             Value := .prePaidData { Amount := 400 } }] ∧
      typedUpdateFunc IncrementUsedAmount 700
          ((getAllKeys 42).filterMap (channelStore 42 1000 400 0).get)
        = .panic assertionPanic ∧
      UpdateUsage ExecuteTransaction 42 700 USED_AMOUNT (channelStore 42 1000 400 0)
        = (.panicked assertionPanic, channelStore 42 1000 400 0) := by
  refine ⟨by decide, by decide, by decide⟩

/-- C14: on channel 42 with planned = 1000, used = 0, failed = 0 the scenario expects
success, the usage-exceeded error, success, success, with used ending at 1100.  Each of
the four calls ends in a panic instead, and the store is as at the start: used is still 0
and planned still 1000. -/
theorem scenario42_every_call_panics :
    applyUpdates 42 scenario42 (channelStore 42 1000 0 0)
        = ([.panicked assertionPanic, .panicked assertionPanic,
            .panicked assertionPanic, .panicked assertionPanic],
           channelStore 42 1000 0 0) ∧
      (channelStore 42 1000 0 0).amount 42 USED_AMOUNT = 0 ∧
      (channelStore 42 1000 0 0).amount 42 PLANNED_AMOUNT = 1000 := by
  refine ⟨by decide, by decide, by decide⟩

/-- C15: when `GetAll` yields no data (the nil interface) and an error, the assertion of
line 27 panics and the error is not returned; when it yields a slice of records, that
slice and the error value are returned as they are. -/
theorem ListPrePaidUsers_failed_read_panics :
    ListPrePaidUsers (fun _ : Unit => (Dyn.nil, some "store unreachable")) ()
        = .panicked assertionPanic ∧
      ∀ (users : List PrePaidData) (err : Option String),
        ListPrePaidUsers (fun _ : Unit => (Dyn.prePaidDataList users, err)) ()
          = .returned (users, err) :=
  ⟨rfl, fun _ _ => rfl⟩

/-- C17: two increment-used calls on channel 42 (planned = 1000, used = 0), with deltas
100 and 200 that both fit the funds, run one after the other, which is one of the
interleavings.  Both end in a panic and used stays 0 instead of 300.  Whatever records a
call reads, at whatever moment, its update function returns no records to swap in. -/
theorem two_used_increments_both_panic :
    UpdateUsage ExecuteTransaction 42 100 USED_AMOUNT (channelStore 42 1000 0 0)
        = (.panicked assertionPanic, channelStore 42 1000 0 0) ∧
      UpdateUsage ExecuteTransaction 42 200 USED_AMOUNT (channelStore 42 1000 0 0)
        = (.panicked assertionPanic, channelStore 42 1000 0 0) ∧
      (channelStore 42 1000 0 0).amount 42 USED_AMOUNT = 0 ∧
      ∀ (delta : Int) (recs : List TypedKeyValueData),
        (typedUpdateFunc IncrementUsedAmount delta recs).isOk = false :=
  ⟨by decide, by decide, by decide,
    fun delta recs => typedUpdateFunc_never_ok USED_AMOUNT IncrementUsedAmount rfl delta recs⟩

/-- C18: called the way `UpdateUsage` calls them, with the slice of typed records first
and the amount second, `IncrementPlannedAmount` and `IncrementRefundAmount` panic at
their first assertion (lines 156 and 177) and `IncrementUsedAmount` returns no records:
on the records of channel 42 it panics at the assertion of line 147. -/
theorem rules_panic_at_call_site (recs : List TypedKeyValueData) (amount : Int) :
    IncrementPlannedAmount [.typedKVList recs, .bigInt amount] = .panic assertionPanic ∧
      IncrementRefundAmount [.typedKVList recs, .bigInt amount] = .panic assertionPanic ∧
      (IncrementUsedAmount [.typedKVList recs, .bigInt amount]).isOk = false ∧
      IncrementUsedAmount [.typedKVList channel42, .bigInt 400] = .panic assertionPanic :=
  ⟨rfl, rfl, IncrementUsedAmount_never_ok _, by decide⟩

/-! ## Decimal rendering and storage keys -/

/-- A decimal digit character is not the slash. -/
theorem digitChar_ne_slash (k : Nat) (hk : k < 10) : Nat.digitChar k ≠ '/' := by
  interval_cases k <;> decide

/-- A decimal digit character is not the minus sign. -/
theorem digitChar_ne_minus (k : Nat) (hk : k < 10) : Nat.digitChar k ≠ '-' := by
  interval_cases k <;> decide

/-- The character of a decimal digit denotes that digit. -/
theorem digitChar_value (k : Nat) (hk : k < 10) : (Nat.digitChar k).toNat - 48 = k := by
  interval_cases k <;> rfl

/-- The digit loop of the runtime adds neither a slash nor a minus sign. -/
theorem toDigitsCore_chars (fuel : Nat) :
    ∀ (n : Nat) (ds : List Char), (∀ c ∈ ds, c ≠ '/' ∧ c ≠ '-') →
      ∀ c ∈ Nat.toDigitsCore 10 fuel n ds, c ≠ '/' ∧ c ≠ '-' := by
  induction fuel with
  | zero => intro n ds h c hc; exact h c (by simpa [Nat.toDigitsCore] using hc)
  | succ fuel ih =>
    intro n ds h c hc
    have hcons : ∀ c ∈ Nat.digitChar (n % 10) :: ds, c ≠ '/' ∧ c ≠ '-' := by
      intro c hc
      rcases List.mem_cons.mp hc with rfl | hmem
      · exact ⟨digitChar_ne_slash _ (Nat.mod_lt _ (by decide)),
          digitChar_ne_minus _ (Nat.mod_lt _ (by decide))⟩
      · exact h c hmem
    simp only [Nat.toDigitsCore] at hc
    split_ifs at hc
    · exact hcons c hc
    · exact ih _ _ hcons c hc

/-- Reading back what the digit loop produced gives the number it was run on. -/
theorem toDigitsCore_value (fuel : Nat) :
    ∀ (n : Nat) (ds : List Char), n < fuel →
      (Nat.toDigitsCore 10 fuel n ds).foldl (fun acc ch => acc * 10 + (ch.toNat - 48)) 0
        = ds.foldl (fun acc ch => acc * 10 + (ch.toNat - 48)) n := by
  induction fuel with
  | zero => intro n ds h; omega
  | succ fuel ih =>
    intro n ds h
    simp only [Nat.toDigitsCore]
    split_ifs with hz
    · have hn : n % 10 = n := by omega
      simp only [List.foldl_cons, Nat.zero_mul, Nat.zero_add]
      rw [digitChar_value (n % 10) (Nat.mod_lt _ (by decide)), hn]
    · rw [ih (n / 10) _ (by omega)]
      simp only [List.foldl_cons, digitChar_value (n % 10) (Nat.mod_lt _ (by decide))]
      congr 1
      omega

/-- The decimal digits of a number denote that number. -/
theorem digitsValue_toDigits (n : Nat) : digitsValue (Nat.toDigits 10 n) = n := by
  unfold digitsValue Nat.toDigits
  rw [toDigitsCore_value (n + 1) n [] (by omega)]
  rfl

/-- Two natural numbers with the same decimal rendering are equal. -/
theorem toString_nat_injective (m n : Nat) (h : toString m = toString n) : m = n := by
  have hd : Nat.toDigits 10 m = Nat.toDigits 10 n := by
    have := congrArg String.data h
    simpa [toString, Nat.repr] using this
  rw [← digitsValue_toDigits m, ← digitsValue_toDigits n, hd]

/-- The decimal rendering of a natural number holds neither a slash nor a minus sign. -/
theorem toString_nat_chars (n : Nat) : ∀ c ∈ (toString n).data, c ≠ '/' ∧ c ≠ '-' := by
  intro c hc
  have : c ∈ Nat.toDigits 10 n := by simpa [toString, Nat.repr] using hc
  exact toDigitsCore_chars _ _ _ (by simp) c this

/-- The decimal rendering of an integer holds no slash. -/
theorem toString_int_no_slash (z : Int) : '/' ∉ (toString z).data := by
  intro hc
  cases z with
  | ofNat m =>
    exact (toString_nat_chars m '/' hc).1 rfl
  | negSucc m =>
    have : '/' ∈ ("-" ++ toString (m + 1)).data := hc
    simp only [String.data_append, List.mem_append] at this
    rcases this with h | h
    · revert h; decide
    · exact (toString_nat_chars (m + 1) '/' h).1 rfl

/-- Two integers with the same decimal rendering are equal. -/
theorem toString_int_injective (a b : Int) (h : toString a = toString b) : a = b := by
  cases a with
  | ofNat m =>
    cases b with
    | ofNat n =>
      have : toString m = toString n := h
      rw [toString_nat_injective m n this]
    | negSucc n =>
      exfalso
      have h2 : toString m = "-" ++ toString (n + 1) := h
      have hmem : '-' ∈ (toString m).data := by rw [h2]; simp [String.data_append]
      exact (toString_nat_chars m '-' hmem).2 rfl
  | negSucc m =>
    cases b with
    | ofNat n =>
      exfalso
      have h2 : "-" ++ toString (m + 1) = toString n := h
      have hmem : '-' ∈ (toString n).data := by rw [← h2]; simp [String.data_append]
      exact (toString_nat_chars n '-' hmem).2 rfl
    | negSucc n =>
      have h2 : "-" ++ toString (m + 1) = "-" ++ toString (n + 1) := h
      have h3 : toString (m + 1) = toString (n + 1) := by
        have := congrArg String.data h2
        simp only [String.data_append, List.append_cancel_left_eq] at this
        exact String.ext this
      have := toString_nat_injective _ _ h3
      have hmn : m = n := by omega
      rw [hmn]

/-- Two texts without a slash, each followed by a slash and a rest, give the same whole only
if the texts are equal and the rests are equal. -/
theorem split_at_first_slash (l1 : List Char) :
    ∀ (l2 r1 r2 : List Char), '/' ∉ l1 → '/' ∉ l2 →
      l1 ++ '/' :: r1 = l2 ++ '/' :: r2 → l1 = l2 ∧ r1 = r2 := by
  induction l1 with
  | nil =>
    intro l2 r1 r2 _ h2 h
    cases l2 with
    | nil => simpa using h
    | cons c l2 =>
      simp only [List.nil_append, List.cons_append, List.cons.injEq] at h
      exact absurd (h.1 ▸ List.mem_cons_self _ _) h2
  | cons c l1 ih =>
    intro l2 r1 r2 h1 h2 h
    cases l2 with
    | nil =>
      simp only [List.nil_append, List.cons_append, List.cons.injEq] at h
      exact absurd (h.1 ▸ List.mem_cons_self _ _) h1
    | cons d l2 =>
      simp only [List.cons_append, List.cons.injEq] at h
      obtain ⟨hl, hr⟩ := ih l2 r1 r2 (fun hm => h1 (List.mem_cons_of_mem _ hm))
        (fun hm => h2 (List.mem_cons_of_mem _ hm)) h.2
      exact ⟨by rw [h.1, hl], hr⟩

/-- The keys of `getAllKeys` are the keys of line 81 for REFUND, PLANNED and USED. -/
theorem getAllKeys_eq (channelId : Int) :
    getAllKeys channelId = [usageKey channelId REFUND_AMOUNT,
      usageKey channelId PLANNED_AMOUNT, usageKey channelId USED_AMOUNT] := rfl

/-- Equal keys come from equal channel ids and equal usage-type names. -/
theorem usageKey_injective (c1 c2 : Int) (t1 t2 : String)
    (h : usageKey c1 t1 = usageKey c2 t2) : c1 = c2 ∧ t1 = t2 := by
  have hdata := congrArg String.data h
  simp only [usageKey, String.data_append, List.append_assoc] at hdata
  have hsplit := split_at_first_slash (toString c1).data (toString c2).data t1.data t2.data
    (toString_int_no_slash c1) (toString_int_no_slash c2) hdata
  exact ⟨toString_int_injective c1 c2 (String.ext hsplit.1), String.ext hsplit.2⟩

/-- C20: the key built for (c1, t1) equals the key built for (c2, t2) only if c1 = c2 and
t1 = t2; `getAllKeys` returns the keys for REFUND, PLANNED and USED, which are pairwise
distinct, and the keys of two different channels have no key in common. -/
theorem storage_keys_unambiguous (c1 c2 : Int) (t1 t2 : String) :
    (usageKey c1 t1 = usageKey c2 t2 → c1 = c2 ∧ t1 = t2) ∧
      getAllKeys c1 = [usageKey c1 REFUND_AMOUNT, usageKey c1 PLANNED_AMOUNT,
        usageKey c1 USED_AMOUNT] ∧
      (getAllKeys c1).Nodup ∧
      (c1 ≠ c2 → ∀ k ∈ getAllKeys c1, k ∉ getAllKeys c2) := by
  refine ⟨usageKey_injective c1 c2 t1 t2, rfl, ?_, ?_⟩
  · rw [getAllKeys_eq]
    have h1 : usageKey c1 REFUND_AMOUNT ≠ usageKey c1 PLANNED_AMOUNT := fun h =>
      planned_ne_refund (usageKey_injective _ _ _ _ h).2.symm
    have h2 : usageKey c1 REFUND_AMOUNT ≠ usageKey c1 USED_AMOUNT := fun h =>
      used_ne_refund (usageKey_injective _ _ _ _ h).2.symm
    have h3 : usageKey c1 PLANNED_AMOUNT ≠ usageKey c1 USED_AMOUNT := fun h =>
      used_ne_planned (usageKey_injective _ _ _ _ h).2.symm
    simp [h1, h2, h3]
  · intro hne k hk1 hk2
    rw [getAllKeys_eq] at hk1 hk2
    simp only [List.mem_cons, List.mem_singleton, List.not_mem_nil, or_false] at hk1 hk2
    rcases hk1 with rfl | rfl | rfl <;> rcases hk2 with h | h | h <;>
      exact hne (usageKey_injective _ _ _ _ h).1

end Escrow
